import Mathlib

/-!
Verification development for the AutoSpotting replacement engine.

The Lean definitions below are shallow embeddings of the Go source files:
  - instance_actions.go   (swapWithGroupMember, getSwapCandidate, terminate)
  - instance_conversion.go (EBS volume conversion, bidding, tag generation)
  - spot_termination handling (executeAction, detachInstance, terminateInstance)
  - core/instance.go      (compatibility filter, legacy tag generation)

Go float64 arithmetic is modelled with exact rationals, Go machine integers
with Int, Go nil-able pointers with Option, and Go panics (nil dereference)
with Except.  Cloud API calls are modelled with oracle records describing
the outcome of each call and with explicit event traces.
-/

namespace AutoSpotting

/-- Model of Go pointer dereference: dereferencing nil is a runtime panic,
modelled as an error result. -/
def goDeref {α : Type} : Option α → Except String α
  | none => .error "runtime error: invalid memory address or nil pointer dereference"
  | some a => .ok a

/-- Auxiliary substring check on character lists: does `sub` occur inside `l`? -/
def listContainsSub (sub : List Char) : List Char → Bool
  | [] => sub.isEmpty
  | c :: t => List.isPrefixOf sub (c :: t) || listContainsSub sub t

/-- Model of Go `strings.Contains s sub`. -/
def stringsContains (s sub : String) : Bool :=
  listContainsSub sub.data s.data

/-- Model of Go `strings.HasPrefix s pre`. -/
def stringsHasPrefix (s pre : String) : Bool :=
  List.isPrefixOf pre.data s.data

/-- Lexicographic order on character lists. -/
def charListLe : List Char → List Char → Bool
  | [], _ => true
  | _ :: _, [] => false
  | a :: as, b :: bs =>
    if a = b then charListLe as bs
    else decide (a < b)

/-- Lexicographic string order used by Go `sort.Strings` (byte-wise for the
ASCII instance-type names involved). -/
def stringsLe (a b : String) : Bool :=
  charListLe a.data b.data

/-! ## EBS volume-type conversion (instance_conversion.go) -/

/-- The hardcoded list of regions that do not support io2 volumes
(`unsupportedIO2Regions` in instance_conversion.go). -/
def unsupportedIO2Regions : List String :=
  ["us-gov-west-1",
   "us-gov-east-1",
   "sa-east-1",
   "cn-north-1",
   "cn-northwest-1",
   "eu-south-1",
   "af-south-1",
   "eu-west-3",
   "ap-northeast-3"]

/-- `supportedIO2region` from instance_conversion.go: a region supports io2
iff it is not in the hardcoded unsupported list. -/
def supportedIO2region (region : String) : Bool :=
  !(unsupportedIO2Regions.contains region)

/-- `DefaultGP2ConversionThreshold` from core/connections.go. -/
def DefaultGP2ConversionThreshold : Int := 170

/-- `convertLaunchConfigurationEBSVolumeType` from instance_conversion.go.
The launch-configuration variant explicitly checks the VolumeType pointer for
nil and returns nil in that case; the size pointer is dereferenced only when
the volume type is gp2 (Go short-circuit evaluation). -/
def convertLaunchConfigurationEBSVolumeType (volumeType : Option String)
    (volumeSize : Option Int) (regionName : String) (gp2Threshold : Int) :
    Except String (Option String) :=
  match volumeType with
  | none => .ok none
  | some vt =>
    if vt = "io1" && supportedIO2region regionName then .ok (some "io2")
    else if vt = "gp2" then
      match goDeref volumeSize with
      | .error e => .error e
      | .ok size =>
        if size ≤ gp2Threshold then .ok (some "gp3") else .ok (some vt)
    else .ok (some vt)

/-- `convertLaunchTemplateEBSVolumeType` from instance_conversion.go.  Unlike
the launch-configuration variant it dereferences the VolumeType pointer
unconditionally. -/
def convertLaunchTemplateEBSVolumeType (volumeType : Option String)
    (volumeSize : Option Int) (regionName : String) (gp2Threshold : Int) :
    Except String (Option String) :=
  match goDeref volumeType with
  | .error e => .error e
  | .ok vt =>
    if vt = "io1" && supportedIO2region regionName then .ok (some "io2")
    else if vt = "gp2" then
      match goDeref volumeSize with
      | .error e => .error e
      | .ok size =>
        if size ≤ gp2Threshold then .ok (some "gp3") else .ok (some vt)
    else .ok (some vt)

/-- `convertImageEBSVolumeType` from instance_conversion.go, identical in
structure to the launch-template variant (unconditional dereference). -/
def convertImageEBSVolumeType (volumeType : Option String)
    (volumeSize : Option Int) (regionName : String) (gp2Threshold : Int) :
    Except String (Option String) :=
  match goDeref volumeType with
  | .error e => .error e
  | .ok vt =>
    if vt = "io1" && supportedIO2region regionName then .ok (some "io2")
    else if vt = "gp2" then
      match goDeref volumeSize with
      | .error e => .error e
      | .ok size =>
        if size ≤ gp2Threshold then .ok (some "gp3") else .ok (some vt)
    else .ok (some vt)

/-! ## Bid-price computation (instance_conversion.go, getPriceToBid) -/

/-- Modelled from the spec: the constant `DefaultBiddingPolicy` is defined in
a configuration file of this repository that is not part of the provided
sources; per the spec, the default bidding policy is the string "normal". -/
def DefaultBiddingPolicy : String := "normal"

/-- `getPriceToBid` from instance_conversion.go.  Prices are modelled as
exact rationals.  `i.region.conf.BiddingPolicy` and
`i.region.conf.SpotPriceBufferPercentage` are passed explicitly. -/
def getPriceToBid (biddingPolicy : String) (spotPriceBufferPercentage : ℚ)
    (baseOnDemandPrice currentSpotPrice spotPremium : ℚ) : ℚ :=
  if biddingPolicy = DefaultBiddingPolicy then
    baseOnDemandPrice
  else
    min baseOnDemandPrice
      ((currentSpotPrice - spotPremium) * (1 + spotPriceBufferPercentage / 100)
        + spotPremium)

/-! ## Tag generation (instance_conversion.go and core/instance.go) -/

/-- An EC2 tag (key/value pair). -/
structure GoTag where
  key : String
  value : String
deriving DecidableEq

/-- The launch-template reference stored on an auto-scaling group. -/
structure LaunchTemplateRef where
  launchTemplateId : String
  version : String
deriving DecidableEq

/-- The parts of an auto-scaling group that tag generation reads. -/
structure ASGInfo where
  name : String
  launchTemplate : Option LaunchTemplateRef
  launchConfigurationName : Option String
deriving DecidableEq

/-- The parts of the reference instance that tag generation reads. -/
structure InstanceInfo where
  instanceId : String
  asg : ASGInfo
  tags : List GoTag
deriving DecidableEq

/-- An instance-scoped (or otherwise scoped) tag specification. -/
structure TagSpecification where
  resourceType : String
  tags : List GoTag
deriving DecidableEq, Inhabited

/-- The `tagsToSkip` list inside `filterTags` in instance_conversion.go. -/
def tagsToSkip : List String :=
  ["launched-by-autospotting",
   "launched-for-asg",
   "launched-for-replacing-instance",
   "LaunchTemplateID",
   "LaunchTemplateVersion",
   "LaunchConfigurationName"]

/-- `filterTags` from instance_conversion.go: keep a tag iff its key does not
start with "aws:" and is not one of the six reserved keys. -/
def filterTags (tags : List GoTag) : List GoTag :=
  tags.filter (fun t => !(stringsHasPrefix t.key "aws:") && !(tagsToSkip.contains t.key))

/-- The three identifying tags every replacement spot instance carries. -/
def identifyingTags (i : InstanceInfo) : List GoTag :=
  [⟨"launched-by-autospotting", "true"⟩,
   ⟨"launched-for-asg", i.asg.name⟩,
   ⟨"launched-for-replacing-instance", i.instanceId⟩]

/-- The source-descriptor tags: the launch-template pair when the group uses a
launch template, else the launch-configuration name when present. -/
def sourceDescriptorTags (a : ASGInfo) : List GoTag :=
  match a.launchTemplate with
  | some lt =>
    [⟨"LaunchTemplateID", lt.launchTemplateId⟩,
     ⟨"LaunchTemplateVersion", lt.version⟩]
  | none =>
    match a.launchConfigurationName with
    | some n => [⟨"LaunchConfigurationName", n⟩]
    | none => []

/-- `generateTagsList` from instance_conversion.go (the launch-template /
fleet path): one instance-scoped tag specification holding the three
identifying tags, the source-descriptor tags, then the filtered instance
tags. -/
def generateTagsList (i : InstanceInfo) : List TagSpecification :=
  [⟨"instance",
    identifyingTags i ++ sourceDescriptorTags i.asg ++ filterTags i.tags⟩]

namespace Legacy

/-- `generateTagsList` from core/instance.go (the legacy RunInstances path).
The skip condition is written inline and its last literal is misspelled in
the source as "LaunchConfiguationName" (missing the letter r); the
misspelling is reproduced here faithfully. -/
def generateTagsList (i : InstanceInfo) : List TagSpecification :=
  [⟨"instance",
    identifyingTags i ++ sourceDescriptorTags i.asg ++
      i.tags.filter (fun t =>
        !(stringsHasPrefix t.key "aws:") &&
        t.key ≠ "launched-by-autospotting" &&
        t.key ≠ "launched-for-asg" &&
        t.key ≠ "launched-for-replacing-instance" &&
        t.key ≠ "LaunchTemplateID" &&
        t.key ≠ "LaunchTemplateVersion" &&
        t.key ≠ "LaunchConfiguationName")⟩]

end Legacy

/-- Specification-side description of the instance-scoped tag set of §4.2:
exactly the three identifying tags, plus either the launch-template pair or
the launch-configuration name, followed by the reference instance's own tags
excluding any whose key starts with "aws:" or equals one of the six reserved
keys.  Written from the spec's words, to be compared with `generateTagsList`. -/
def specInstanceTagSet (i : InstanceInfo) : List GoTag :=
  [⟨"launched-by-autospotting", "true"⟩,
   ⟨"launched-for-asg", i.asg.name⟩,
   ⟨"launched-for-replacing-instance", i.instanceId⟩] ++
  (match i.asg.launchTemplate with
   | some lt =>
     [⟨"LaunchTemplateID", lt.launchTemplateId⟩,
      ⟨"LaunchTemplateVersion", lt.version⟩]
   | none =>
     match i.asg.launchConfigurationName with
     | some n => [⟨"LaunchConfigurationName", n⟩]
     | none => []) ++
  i.tags.filter (fun t =>
    !(stringsHasPrefix t.key "aws:") &&
    !(["launched-by-autospotting", "launched-for-asg",
       "launched-for-replacing-instance", "LaunchTemplateID",
       "LaunchTemplateVersion", "LaunchConfigurationName"].contains t.key))

/-! ## Compatibility filter (core/instance.go) -/

/-- `instanceTypeInformation` from core/instance.go.  Go float64/float32
fields are modelled with rationals, and the spot-price map with an
association list (Go map reads of absent keys yield the zero value). -/
structure InstanceTypeInformation where
  instanceType : String
  vCPU : Nat
  PhysicalProcessor : String
  GPU : Nat
  onDemandPrice : ℚ
  spotPrices : List (String × ℚ)
  ebsSurcharge : ℚ
  memory : ℚ
  virtualizationTypes : List String
  hasInstanceStore : Bool
  instanceStoreDeviceSize : ℚ
  instanceStoreDeviceCount : Nat
  instanceStoreIsSSD : Bool
  hasEBSOptimization : Bool
  EBSThroughput : ℚ
deriving DecidableEq, Inhabited

/-- `acceptableInstance` from core/instance.go: a compatible candidate with
its computed price. -/
structure AcceptableInstance where
  instanceTI : InstanceTypeInformation
  price : ℚ
deriving DecidableEq

/-- The parts of the reference running instance the filter reads:
availability zone, EBS-optimized flag (nil pointer modelled as false),
price ceiling (`i.price`), virtualization type, and type descriptor. -/
structure RefInstance where
  availabilityZone : String
  ebsOptimized : Bool
  price : ℚ
  virtualizationType : String
  typeInfo : InstanceTypeInformation
deriving DecidableEq

/-- Go map read with zero value for missing keys, used for the spot-price map. -/
def spotPriceIn (c : InstanceTypeInformation) (az : String) : ℚ :=
  ((c.spotPrices.lookup az).getD 0)

/-- `calculatePrice` from core/instance.go: zone spot price plus the EBS
surcharge when the reference instance is EBS-optimized. -/
def calculatePrice (i : RefInstance) (spotCandidate : InstanceTypeInformation) : ℚ :=
  spotPriceIn spotCandidate i.availabilityZone +
    (if i.ebsOptimized then spotCandidate.ebsSurcharge else 0)

/-- `isPriceCompatible` from core/instance.go: zero means unavailable in the
zone; otherwise the candidate price must not exceed the reference price. -/
def isPriceCompatible (i : RefInstance) (spotPrice : ℚ) : Bool :=
  if spotPrice = 0 then false
  else if spotPrice ≤ i.price then true
  else false

/-- `isIntel` from core/instance.go ("Variable" covers t1.micro). -/
def isIntel (cpuName : String) : Bool :=
  stringsContains cpuName "Intel" || stringsContains cpuName "Variable"

/-- `isAMD` from core/instance.go. -/
def isAMD (cpuName : String) : Bool :=
  stringsContains cpuName "AMD"

/-- `isIntelCompatible` from core/instance.go. -/
def isIntelCompatible (cpuName : String) : Bool :=
  isIntel cpuName || isAMD cpuName

/-- `isARM` from core/instance.go (the ARM chips all carry "AWS" in the
processor name). -/
def isARM (cpuName : String) : Bool :=
  stringsContains cpuName "AWS"

/-- `isSameArch` from core/instance.go. -/
def isSameArch (i : RefInstance) (other : InstanceTypeInformation) : Bool :=
  (isIntelCompatible i.typeInfo.PhysicalProcessor &&
     isIntelCompatible other.PhysicalProcessor) ||
  (isARM i.typeInfo.PhysicalProcessor && isARM other.PhysicalProcessor)

/-- `isClassCompatible` from core/instance.go. -/
def isClassCompatible (i : RefInstance) (spotCandidate : InstanceTypeInformation) : Bool :=
  isSameArch i spotCandidate &&
  decide (i.typeInfo.vCPU ≤ spotCandidate.vCPU) &&
  decide (i.typeInfo.memory ≤ spotCandidate.memory) &&
  decide (i.typeInfo.GPU ≤ spotCandidate.GPU)

/-- `isEBSCompatible` from core/instance.go. -/
def isEBSCompatible (i : RefInstance) (spotCandidate : InstanceTypeInformation) : Bool :=
  !(decide (spotCandidate.EBSThroughput < i.typeInfo.EBSThroughput))

/-- `isStorageCompatible` from core/instance.go. -/
def isStorageCompatible (i : RefInstance) (spotCandidate : InstanceTypeInformation)
    (attachedVolumes : Nat) : Bool :=
  decide (attachedVolumes = 0) ||
  (decide (attachedVolumes ≤ spotCandidate.instanceStoreDeviceCount) &&
   decide (i.typeInfo.instanceStoreDeviceSize ≤ spotCandidate.instanceStoreDeviceSize) &&
   (spotCandidate.instanceStoreIsSSD ||
    decide (spotCandidate.instanceStoreIsSSD = i.typeInfo.instanceStoreIsSSD)))

/-- `isVirtualizationCompatible` from core/instance.go: an empty candidate
set defaults to HVM. -/
def isVirtualizationCompatible (i : RefInstance) (spotVirtualizationTypes : List String) : Bool :=
  let vts := if spotVirtualizationTypes = [] then ["HVM"] else spotVirtualizationTypes
  vts.any (fun avt =>
    (avt = "PV" && i.virtualizationType = "paravirtual") ||
    (avt = "HVM" && i.virtualizationType = "hvm"))

/-- `isAllowed` from core/instance.go.  `globMatch` abstracts the external
`filepath.Match` function from the Go standard library. -/
def isAllowed (globMatch : String → String → Bool) (instanceType : String)
    (allowedList disallowedList : List String) : Bool :=
  if allowedList ≠ [] then
    allowedList.any (fun a => globMatch a instanceType)
  else if disallowedList ≠ [] then
    !(disallowedList.any (fun a => globMatch a instanceType))
  else true

/-- The compatibility conjunction checked for each candidate inside
`getCompatibleSpotInstanceTypesListSortedAscendingByPrice`, in source order. -/
def candidateAccepted (globMatch : String → String → Bool) (i : RefInstance)
    (allowedList disallowedList : List String) (attachedVolumes : Nat)
    (candidate : InstanceTypeInformation) : Bool :=
  isAllowed globMatch candidate.instanceType allowedList disallowedList &&
  isPriceCompatible i (calculatePrice i candidate) &&
  isEBSCompatible i candidate &&
  isClassCompatible i candidate &&
  isStorageCompatible i candidate attachedVolumes &&
  isVirtualizationCompatible i candidate.virtualizationTypes

/-- Map read from the per-region catalog (keys are iterated from the map,
hence always present; absent keys would yield the Go zero value). -/
def lookupITI (catalog : List (String × InstanceTypeInformation)) (k : String) :
    InstanceTypeInformation :=
  (catalog.lookup k).getD default

/-- The pre-sort `acceptableInstanceTypes` list built by
`getCompatibleSpotInstanceTypesListSortedAscendingByPrice`: iterate the
catalog keys in ascending lexicographic order (`sort.Strings`), compute each
candidate's price, and keep the candidates passing all compatibility checks.
`attachedVolumesNumber` is `min usedMappings current.instanceStoreDeviceCount`
where `usedMappings` counts the launch configuration's ephemeral volumes. -/
def acceptableInstanceTypesFor (globMatch : String → String → Bool)
    (i : RefInstance) (allowedList disallowedList : List String)
    (usedMappings : Nat) (catalog : List (String × InstanceTypeInformation)) :
    List AcceptableInstance :=
  let attachedVolumes := min usedMappings i.typeInfo.instanceStoreDeviceCount
  let keys := (catalog.map Prod.fst).insertionSort (fun a b => stringsLe a b = true)
  keys.filterMap (fun k =>
    let candidate := lookupITI catalog k
    if candidateAccepted globMatch i allowedList disallowedList attachedVolumes candidate
    then some ⟨candidate, calculatePrice i candidate⟩
    else none)

/-- The relational model of
`getCompatibleSpotInstanceTypesListSortedAscendingByPrice` from
core/instance.go.  The final `sort.Slice` call is not a stable sort (Go
documents `sort.Slice` as not guaranteed stable), so the function's possible
outputs are exactly: a permutation of the acceptable list that is
non-decreasing in the comparison key, projected to the type descriptors; the
empty acceptable list instead yields an error. -/
def getCompatibleSpotInstanceTypesListSortedAscendingByPrice
    (globMatch : String → String → Bool) (i : RefInstance)
    (allowedList disallowedList : List String) (usedMappings : Nat)
    (catalog : List (String × InstanceTypeInformation))
    (out : List InstanceTypeInformation) : Prop :=
  ∃ sortedAcc : List AcceptableInstance,
    List.Perm sortedAcc
      (acceptableInstanceTypesFor globMatch i allowedList disallowedList usedMappings catalog) ∧
    sortedAcc.Pairwise (fun a b => a.price ≤ b.price) ∧
    acceptableInstanceTypesFor globMatch i allowedList disallowedList usedMappings catalog ≠ [] ∧
    out = sortedAcc.map AcceptableInstance.instanceTI

/-! ## Swap state machine (instance_actions.go) -/

/-- Observable cloud-side actions performed during a swap.
`terminateSpotRequest` stands for the `i.terminate()` call on the spot
instance (which issues TerminateInstances unless the instance is already
shutting down); `terminateInAsg` for
`asg.terminateInstanceInAutoScalingGroup` with its two boolean flags. -/
inductive SwapEvent
  | suspendProcesses
  | resumeProcesses
  | setMaxSize (n : Int)
  | attachSpot (instanceId : String)
  | terminateSpotRequest (instanceId : String)
  | terminateInAsg (instanceId : String) (decrementDesired respectGracePeriod : Bool)
deriving DecidableEq

/-- The capacity-relevant cloud-side state of the auto-scaling group. -/
structure GroupState where
  desiredCapacity : Int
  maxSize : Int
  processesSuspended : Bool
deriving DecidableEq

/-- Modelled from the spec: `asg.suspendProcesses()` (autoscaling group code
not under the provided sources) suspends the group's reconciliation
processes. -/
def suspendProcesses (g : GroupState) : GroupState :=
  { g with processesSuspended := true }

/-- Modelled from the spec: `asg.resumeProcesses()` (autoscaling group code
not under the provided sources) resumes the group's reconciliation
processes. -/
def resumeProcesses (g : GroupState) : GroupState :=
  { g with processesSuspended := false }

/-- Modelled from the spec: `asg.setAutoScalingMaxSize(n)` (autoscaling group
code not under the provided sources) sets the group's MaxSize to `n`. -/
def setAutoScalingMaxSize (n : Int) (g : GroupState) : GroupState :=
  { g with maxSize := n }

/-- Outcome of locating the swap target in `getSwapCandidate`:
the replacement-target tag may be missing, the re-describe call may fail,
the re-described instance may be absent from the region's instance index, or
`shouldBeReplacedWithSpot()` may return false; otherwise a candidate is
found. -/
inductive SwapCandidateOutcome
  | noTargetTag
  | describeFails
  | targetMissing
  | notReplaceable
  | replaceable
deriving DecidableEq

/-- Oracle describing the outcomes of the cloud calls a swap performs. -/
structure SwapEnv where
  candidateOutcome : SwapCandidateOutcome
  attachSucceeds : Bool
  terminateODSucceeds : Bool
deriving DecidableEq

/-- `getSwapCandidate` from instance_actions.go: the result together with the
cloud-side actions it performs.  Only the `shouldBeReplacedWithSpot()=false`
path calls `i.terminate()` on the spot instance. -/
def getSwapCandidate (env : SwapEnv) (spotId : String) :
    Except String Unit × List SwapEvent :=
  match env.candidateOutcome with
  | .noTargetTag => (.error ("couldn't find target instance for " ++ spotId), [])
  | .describeFails => (.error "target instance couldn't be described", [])
  | .targetMissing => (.error "target instance is missing", [])
  | .notReplaceable =>
    (.error "target instance should not be replaced with spot",
     [.terminateSpotRequest spotId])
  | .replaceable => (.ok (), [])

/-- `swapWithGroupMember` from instance_actions.go.  After a successful
`getSwapCandidate`, processes are suspended with a deferred resume; when
DesiredCapacity equals MaxSize, MaxSize is raised by one with a deferred
restore; the spot instance is attached (terminating it on failure) and the
on-demand instance is terminated in the group.  Go defers run on every exit
path in reverse registration order: the MaxSize restore (registered second)
runs before the process resume (registered first)...  registration order in
the source is resume first (line 97) then restore (line 106), so the restore
runs first on exit. -/
def swapWithGroupMember (env : SwapEnv) (spotId odId : String) (g : GroupState) :
    Except String Unit × GroupState × List SwapEvent :=
  match getSwapCandidate env spotId with
  | (.error e, ev) => (.error e, g, ev)
  | (.ok _, ev0) =>
    let g1 := suspendProcesses g
    let desiredCapacity := g1.desiredCapacity
    let maxSize := g1.maxSize
    let raised : Bool := decide (desiredCapacity = maxSize)
    let g2 := if raised then setAutoScalingMaxSize (maxSize + 1) g1 else g1
    let evPre := ev0 ++ [SwapEvent.suspendProcesses] ++
      (if raised then [SwapEvent.setMaxSize (maxSize + 1)] else [])
    let evDefer := (if raised then [SwapEvent.setMaxSize maxSize] else []) ++
      [SwapEvent.resumeProcesses]
    let gExit := resumeProcesses (if raised then setAutoScalingMaxSize maxSize g2 else g2)
    if env.attachSucceeds = false then
      (.error ("couldn't attach spot instance " ++ spotId), gExit,
       evPre ++ [SwapEvent.attachSpot spotId, SwapEvent.terminateSpotRequest spotId] ++ evDefer)
    else if env.terminateODSucceeds = false then
      (.error ("couldn't terminate on-demand instance " ++ odId), gExit,
       evPre ++ [SwapEvent.attachSpot spotId, SwapEvent.terminateInAsg odId true true] ++ evDefer)
    else
      (.ok (), gExit,
       evPre ++ [SwapEvent.attachSpot spotId, SwapEvent.terminateInAsg odId true true] ++ evDefer)

/-! ## Spot-termination responder (SpotTermination, executeAction) -/

/-- Modelled from the spec: the constant `InstanceRebalanceRecommendationCode`
is defined in an event-handling file of this repository that is not part of
the provided sources; it is the distinguished event-type code carried by
instance rebalance recommendation events (§6). -/
def InstanceRebalanceRecommendationCode : String :=
  "instance-rebalance-recommendation"

/-- The lifecycle transition that makes `asgHasTerminationLifecycleHook`
return true. -/
def terminatingTransition : String := "autoscaling:EC2_INSTANCE_TERMINATING"

/-- Observable cloud-side actions of the termination responder. -/
inductive TermEvent
  | detachInstances (asgName instanceId : String) (decrementDesired : Bool)
  | deleteTagLaunchedForAsg (instanceId : String)
  | delayedTerminate (instanceId : String) (minutes : Nat)
  | terminateInAsg (instanceId : String) (decrementDesired : Bool)
deriving DecidableEq

/-- Oracle describing the outcomes of the responder's cloud calls.
`asgNameLookup` models `getAsgName`: an error, the empty string (instance in
no group), or the owning group's name.  `lifecycleHooks` models
`DescribeLifecycleHooks`: an error or the list of lifecycle transitions. -/
structure TermEnv where
  svcDefined : Bool
  asgNameLookup : Except String String
  lifecycleHooks : Except String (List String)
  detachSucceeds : Bool
  terminateSucceeds : Bool

/-- `asgHasTerminationLifecycleHook` from the spot-termination file: false on
a describe error, otherwise true iff some hook has the terminating
transition. -/
def asgHasTerminationLifecycleHook (env : TermEnv) : Bool :=
  match env.lifecycleHooks with
  | .error _ => false
  | .ok hooks => hooks.contains terminatingTransition

/-- `detachInstance` from the spot-termination file: detach without
decrementing desired capacity; on success, for every event type other than
the rebalance recommendation, also delete the launched-for-asg tag and
terminate the instance after a 14-minute delay (both results discarded). -/
def detachInstance (env : TermEnv) (instanceId asgName eventType : String) :
    Except String Unit × List TermEvent :=
  let ev0 := [TermEvent.detachInstances asgName instanceId false]
  if env.detachSucceeds = false then
    (.error "DetachInstances failed", ev0)
  else if eventType ≠ InstanceRebalanceRecommendationCode then
    (.ok (), ev0 ++ [TermEvent.deleteTagLaunchedForAsg instanceId,
                     TermEvent.delayedTerminate instanceId 14])
  else
    (.ok (), ev0)

/-- `terminateInstance` from the spot-termination file:
TerminateInstanceInAutoScalingGroup without decrementing desired capacity. -/
def terminateInstance (env : TermEnv) (instanceId : String) :
    Except String Unit × List TermEvent :=
  if env.terminateSucceeds = false then
    (.error "TerminateInstanceInAutoScalingGroup failed",
     [TermEvent.terminateInAsg instanceId false])
  else
    (.ok (), [TermEvent.terminateInAsg instanceId false])

/-- `executeAction` from the spot-termination file: fail when the
AutoScaling service handle is nil or the group-name lookup fails; no-op when
the instance is in no group; otherwise dispatch on the termination
notification action, with "auto" (the default branch) choosing terminate or
detach by the presence of a termination lifecycle hook.  The results of the
chosen branch are discarded and nil is returned. -/
def executeAction (env : TermEnv) (instanceId terminationNotificationAction eventType : String) :
    Except String Unit × List TermEvent :=
  if env.svcDefined = false then
    (.error "AutoScaling service not defined. Please use NewSpotTermination()", [])
  else
    match env.asgNameLookup with
    | .error e => (.error e, [])
    | .ok asgName =>
      if asgName = "" then (.ok (), [])
      else
        let branch :=
          if terminationNotificationAction = "detach" then
            detachInstance env instanceId asgName eventType
          else if terminationNotificationAction = "terminate" then
            terminateInstance env instanceId
          else if asgHasTerminationLifecycleHook env then
            terminateInstance env instanceId
          else
            detachInstance env instanceId asgName eventType
        (.ok (), branch.2)

/-! ## Concrete evaluation inputs -/

/-- A glob matcher that matches nothing; irrelevant when both type-name lists
are empty. -/
def trivialGlob : String → String → Bool := fun _ _ => false

/-- A concrete instance-type descriptor used for evaluation, parameterised by
type name: one vCPU, Intel processor, spot price 1 in zone us-east-1a. -/
def tieITI (name : String) : InstanceTypeInformation :=
  { instanceType := name
    vCPU := 1
    PhysicalProcessor := "Intel Xeon Platinum 8175"
    GPU := 0
    onDemandPrice := 2
    spotPrices := [("us-east-1a", 1)]
    ebsSurcharge := 0
    memory := 4
    virtualizationTypes := ["HVM"]
    hasInstanceStore := false
    instanceStoreDeviceSize := 0
    instanceStoreDeviceCount := 0
    instanceStoreIsSSD := false
    hasEBSOptimization := true
    EBSThroughput := 0 }

/-- A concrete reference instance compatible with `tieITI` candidates. -/
def tieRef : RefInstance :=
  { availabilityZone := "us-east-1a"
    ebsOptimized := false
    price := 2
    virtualizationType := "hvm"
    typeInfo := tieITI "m5.large" }

/-- A two-type catalog whose candidates have equal effective price. -/
def tieCatalog : List (String × InstanceTypeInformation) :=
  [("m5.large", tieITI "m5.large"), ("m5a.large", tieITI "m5a.large")]

/-- A concrete instance whose group uses a launch configuration and that
carries a stale tag under the reserved key "LaunchConfigurationName". -/
def c3Instance : InstanceInfo :=
  { instanceId := "i-0spot"
    asg := { name := "mygroup"
             launchTemplate := none
             launchConfigurationName := some "mylc" }
    tags := [⟨"LaunchConfigurationName", "stale-value"⟩] }

/-! ## Theorems -/

/-- The fleet-path `generateTagsList` agrees with the tag set described in
§4.2 of the spec (not claim-bound; shared background fact). -/
theorem generateTagsList_eq_spec (i : InstanceInfo) :
    generateTagsList i = [⟨"instance", specInstanceTagSet i⟩] := by
  rfl

/-- C5: getPriceToBid returns the on-demand price ceiling under the default
("normal") bidding policy; under the aggressive policy it returns
min(priceCeiling, (spot − premium)·(1 + buffer/100) + premium); and with
ceiling 0.10, spot 0.05, premium 0.02, buffer 10 the aggressive bid is
0.053. -/
theorem getPriceToBid_policy_correct (policy : String) (bufferPct base spot premium : ℚ) :
    (policy = "normal" →
      getPriceToBid policy bufferPct base spot premium = base) ∧
    (policy = "aggressive" →
      getPriceToBid policy bufferPct base spot premium =
        min base ((spot - premium) * (1 + bufferPct / 100) + premium)) ∧
    getPriceToBid "aggressive" 10 (1/10) (1/20) (1/50) = 53/1000 := by
  refine ⟨fun h => ?_, fun h => ?_, ?_⟩
  · simp [getPriceToBid, DefaultBiddingPolicy, h]
  · subst h
    simp [getPriceToBid, DefaultBiddingPolicy]
  · have hne : ("aggressive" : String) ≠ DefaultBiddingPolicy := by decide
    unfold getPriceToBid
    rw [if_neg hne]
    norm_num [min_def]

/-- Witness for C5 at concrete inputs. -/
theorem getPriceToBid_policy_correct_witness :
    getPriceToBid "normal" 0 2 1 0 = 2 ∧
    getPriceToBid "aggressive" 10 (1/10) (1/20) (1/50) = 53/1000 :=
  ⟨(getPriceToBid_policy_correct "normal" 0 2 1 0).1 rfl,
   (getPriceToBid_policy_correct "aggressive" 10 (1/10) (1/20) (1/50)).2.2⟩

/-- C7: for launch-template EBS entries, io1 becomes io2 iff the region is
outside the nine-region unsupported set, gp2 becomes gp3 iff the volume size
is at most the configured GP2 conversion threshold (default 170), and every
other volume type is copied unchanged. -/
theorem convertLaunchTemplateEBSVolumeType_cases (vt : String) (size : Int)
    (r : String) (th : Int) :
    (vt = "io1" →
      (convertLaunchTemplateEBSVolumeType (some vt) (some size) r th =
          .ok (some "io2") ↔ r ∉ unsupportedIO2Regions) ∧
      (r ∈ unsupportedIO2Regions →
        convertLaunchTemplateEBSVolumeType (some vt) (some size) r th =
          .ok (some "io1"))) ∧
    (vt = "gp2" →
      (convertLaunchTemplateEBSVolumeType (some vt) (some size) r th =
          .ok (some "gp3") ↔ size ≤ th) ∧
      (th < size →
        convertLaunchTemplateEBSVolumeType (some vt) (some size) r th =
          .ok (some "gp2"))) ∧
    (vt ≠ "io1" → vt ≠ "gp2" →
      convertLaunchTemplateEBSVolumeType (some vt) (some size) r th =
        .ok (some vt)) ∧
    DefaultGP2ConversionThreshold = 170 := by
  refine ⟨fun h => ?_, fun h => ?_, fun h1 h2 => ?_, rfl⟩
  · subst h
    by_cases hr : r ∈ unsupportedIO2Regions
    · simp [convertLaunchTemplateEBSVolumeType, goDeref, supportedIO2region,
        List.elem_iff, hr]
    · simp [convertLaunchTemplateEBSVolumeType, goDeref, supportedIO2region,
        List.elem_iff, hr]
  · subst h
    by_cases hs : size ≤ th
    · constructor
      · simp [convertLaunchTemplateEBSVolumeType, goDeref, hs]
      · intro hlt
        omega
    · constructor
      · simp [convertLaunchTemplateEBSVolumeType, goDeref, hs]
      · intro hlt
        simp [convertLaunchTemplateEBSVolumeType, goDeref, hs]
  · simp [convertLaunchTemplateEBSVolumeType, goDeref, h1, h2]

/-- Witness for C7 at concrete inputs: io1 stays io1 in sa-east-1, and a
100-GiB gp2 volume becomes gp3 at the default threshold. -/
theorem convertLaunchTemplateEBSVolumeType_cases_witness :
    convertLaunchTemplateEBSVolumeType (some "io1") (some 100) "sa-east-1" 170 =
      .ok (some "io1") ∧
    convertLaunchTemplateEBSVolumeType (some "gp2") (some 100) "us-east-1"
        DefaultGP2ConversionThreshold = .ok (some "gp3") := by
  constructor
  · exact ((convertLaunchTemplateEBSVolumeType_cases "io1" 100 "sa-east-1" 170).1
      rfl).2 (by decide)
  · exact ((convertLaunchTemplateEBSVolumeType_cases "gp2" 100 "us-east-1"
      DefaultGP2ConversionThreshold).2.1 rfl).1.mpr (by decide)

/-- C10: the launch-configuration EBS conversion is total on entries with a
nil VolumeType and returns nil for them, whereas the launch-template and
image variants dereference the nil pointer (a Go panic, modelled as an
error). -/
theorem convertEBSVolumeType_nil_behavior (vs : Option Int) (r : String) (th : Int) :
    convertLaunchConfigurationEBSVolumeType none vs r th = .ok none ∧
    (∃ e, convertLaunchTemplateEBSVolumeType none vs r th = .error e) ∧
    (∃ e, convertImageEBSVolumeType none vs r th = .error e) :=
  ⟨rfl, ⟨_, rfl⟩, ⟨_, rfl⟩⟩

/-- C3: the legacy `generateTagsList` in core/instance.go propagates a source
tag whose key is the reserved "LaunchConfigurationName" (its inline skip list
misspells the key as "LaunchConfiguationName"), duplicating the reserved key
in the produced instance-scoped tag set; the fleet-path `generateTagsList` in
instance_conversion.go excludes it as the claim states. -/
theorem generateTagsList_legacy_keeps_reserved_key :
    (GoTag.mk "LaunchConfigurationName" "stale-value") ∈
      ((Legacy.generateTagsList c3Instance).headI.tags) ∧
    ((Legacy.generateTagsList c3Instance).headI.tags).count
      (GoTag.mk "LaunchConfigurationName" "mylc") +
      ((Legacy.generateTagsList c3Instance).headI.tags).count
        (GoTag.mk "LaunchConfigurationName" "stale-value") = 2 ∧
    (GoTag.mk "LaunchConfigurationName" "stale-value") ∉
      ((generateTagsList c3Instance).headI.tags) := by
  decide

/-- Effective price of every `tieITI` candidate for `tieRef` (shared
evaluation helper). -/
theorem tiePriceEval (n : String) : calculatePrice tieRef (tieITI n) = 1 := by
  norm_num [calculatePrice, tieRef, tieITI, spotPriceIn]

/-- Every `tieITI` candidate passes the compatibility conjunction for
`tieRef` (shared evaluation helper). -/
theorem tieAccepted (n : String) :
    candidateAccepted trivialGlob tieRef [] [] 0 (tieITI n) = true := by
  have hp := tiePriceEval n
  unfold candidateAccepted isAllowed isPriceCompatible isEBSCompatible
    isClassCompatible isSameArch isIntelCompatible isIntel isAMD isARM
    isStorageCompatible isVirtualizationCompatible
  rw [hp]
  norm_num [tieRef, tieITI,
    show stringsContains "Intel Xeon Platinum 8175" "Intel" = true from by decide]

/-- Concrete value of the pre-sort acceptable list on the tie example
(shared evaluation helper). -/
theorem tieAcceptableEval :
    acceptableInstanceTypesFor trivialGlob tieRef [] [] 0 tieCatalog =
      [⟨tieITI "m5.large", 1⟩, ⟨tieITI "m5a.large", 1⟩] := by
  have hkeys : (tieCatalog.map Prod.fst).insertionSort
      (fun a b => stringsLe a b = true) = ["m5.large", "m5a.large"] := by
    decide
  have hl1 : lookupITI tieCatalog "m5.large" = tieITI "m5.large" := by rfl
  have hl2 : lookupITI tieCatalog "m5a.large" = tieITI "m5a.large" := by rfl
  have hmin : (0 ⊓ tieRef.typeInfo.instanceStoreDeviceCount) = 0 := by
    simp
  simp only [acceptableInstanceTypesFor, hkeys, List.filterMap_cons,
    List.filterMap_nil, hl1, hl2, hmin, tieAccepted, tiePriceEval]
  simp

/-- C2 counterexample: Go `sort.Slice` is not a stable sort, so reordering
two equal-price candidates is a possible output of
getCompatibleSpotInstanceTypesListSortedAscendingByPrice; the output below
is valid yet places "m5a.large" before the lexicographically smaller
"m5.large" at equal effective price, refuting the claimed tie-break. -/
theorem sortedByPrice_tie_order_counterexample :
    getCompatibleSpotInstanceTypesListSortedAscendingByPrice trivialGlob tieRef
      [] [] 0 tieCatalog [tieITI "m5a.large", tieITI "m5.large"] ∧
    ¬ (([tieITI "m5a.large", tieITI "m5.large"]).Pairwise
        (fun a b => calculatePrice tieRef a = calculatePrice tieRef b →
          stringsLe a.instanceType b.instanceType = true)) := by
  constructor
  · refine ⟨[⟨tieITI "m5a.large", 1⟩, ⟨tieITI "m5.large", 1⟩], ?_, ?_, ?_, rfl⟩
    · rw [tieAcceptableEval]
      exact List.Perm.swap _ _ _
    · simp
    · rw [tieAcceptableEval]
      simp
  · intro hpw
    have h := List.rel_of_pairwise_cons hpw (List.mem_singleton.mpr rfl)
    have hbad := h (by rw [tiePriceEval, tiePriceEval])
    revert hbad
    decide

/-- C2 (amended): every possible output of
getCompatibleSpotInstanceTypesListSortedAscendingByPrice is non-decreasing
in effective price (the equal-price tie order is not guaranteed). -/
theorem getCompatibleList_sorted_by_price (gm : String → String → Bool)
    (i : RefInstance) (al dl : List String) (um : Nat)
    (cat : List (String × InstanceTypeInformation))
    (out : List InstanceTypeInformation)
    (h : getCompatibleSpotInstanceTypesListSortedAscendingByPrice gm i al dl um cat out) :
    out.Pairwise (fun a b => calculatePrice i a ≤ calculatePrice i b) := by
  obtain ⟨acc, hperm, hsorted, hne, hout⟩ := h
  subst hout
  have hmem : ∀ x ∈ acc, x.price = calculatePrice i x.instanceTI := by
    intro x hx
    have hx2 : x ∈ acceptableInstanceTypesFor gm i al dl um cat :=
      hperm.mem_iff.mp hx
    simp only [acceptableInstanceTypesFor, List.mem_filterMap] at hx2
    obtain ⟨k, hk, hfk⟩ := hx2
    split at hfk
    · cases hfk
      rfl
    · cases hfk
  rw [List.pairwise_map]
  refine hsorted.imp_of_mem ?_
  intro a b ha hb hr
  rw [← hmem a ha, ← hmem b hb]
  exact hr

/-- Witness for the amended C2 at a concrete input. -/
theorem getCompatibleList_sorted_by_price_witness :
    ([tieITI "m5.large", tieITI "m5a.large"]).Pairwise
      (fun a b => calculatePrice tieRef a ≤ calculatePrice tieRef b) :=
  getCompatibleList_sorted_by_price trivialGlob tieRef [] [] 0 tieCatalog _
    ⟨[⟨tieITI "m5.large", 1⟩, ⟨tieITI "m5a.large", 1⟩],
      by rw [tieAcceptableEval], by simp, by rw [tieAcceptableEval]; simp, rfl⟩

/-- C6: every candidate returned by the compatibility filter dominates the
reference instance in vCPU, memory and GPU and is in the same
processor-family class, where containing "Intel", "AMD" or "Variable" puts
a processor in the Intel-compatible class, containing "AWS" puts it in the
ARM class, and the classes never mix. -/
theorem compatibleCandidates_class_monotonic (gm : String → String → Bool)
    (i : RefInstance) (al dl : List String) (um : Nat)
    (cat : List (String × InstanceTypeInformation))
    (out : List InstanceTypeInformation)
    (h : getCompatibleSpotInstanceTypesListSortedAscendingByPrice gm i al dl um cat out)
    (C : InstanceTypeInformation) (hC : C ∈ out) :
    i.typeInfo.vCPU ≤ C.vCPU ∧
    i.typeInfo.memory ≤ C.memory ∧
    i.typeInfo.GPU ≤ C.GPU ∧
    ((isIntelCompatible i.typeInfo.PhysicalProcessor = true ∧
        isIntelCompatible C.PhysicalProcessor = true) ∨
     (isARM i.typeInfo.PhysicalProcessor = true ∧
        isARM C.PhysicalProcessor = true)) := by
  obtain ⟨acc, hperm, hsorted, hne, hout⟩ := h
  subst hout
  obtain ⟨x, hx, hxC⟩ := List.mem_map.mp hC
  have hx2 : x ∈ acceptableInstanceTypesFor gm i al dl um cat :=
    hperm.mem_iff.mp hx
  simp only [acceptableInstanceTypesFor, List.mem_filterMap] at hx2
  obtain ⟨k, hk, hfk⟩ := hx2
  split at hfk
  case isTrue haccept =>
    cases hfk
    subst hxC
    have hclass : isClassCompatible i (lookupITI cat k) = true := by
      simp only [candidateAccepted, Bool.and_eq_true] at haccept
      exact haccept.1.1.2
    simp only [isClassCompatible, isSameArch, Bool.and_eq_true, Bool.or_eq_true,
      decide_eq_true_eq] at hclass
    exact ⟨hclass.1.1.2, hclass.1.2, hclass.2, hclass.1.1.1⟩
  case isFalse _ =>
    cases hfk

/-- Witness for C6 at a concrete input. -/
theorem compatibleCandidates_class_monotonic_witness :
    tieRef.typeInfo.vCPU ≤ (tieITI "m5a.large").vCPU ∧
    tieRef.typeInfo.memory ≤ (tieITI "m5a.large").memory ∧
    tieRef.typeInfo.GPU ≤ (tieITI "m5a.large").GPU ∧
    ((isIntelCompatible tieRef.typeInfo.PhysicalProcessor = true ∧
        isIntelCompatible (tieITI "m5a.large").PhysicalProcessor = true) ∨
     (isARM tieRef.typeInfo.PhysicalProcessor = true ∧
        isARM (tieITI "m5a.large").PhysicalProcessor = true)) :=
  compatibleCandidates_class_monotonic trivialGlob tieRef [] [] 0 tieCatalog
    [tieITI "m5.large", tieITI "m5a.large"]
    ⟨[⟨tieITI "m5.large", 1⟩, ⟨tieITI "m5a.large", 1⟩],
      by rw [tieAcceptableEval], by simp, by rw [tieAcceptableEval]; simp, rfl⟩
    (tieITI "m5a.large") (by simp)

/-- C1: every invocation of swapWithGroupMember that reaches the
process-suspension step restores the group's MaxSize to its pre-swap value
and leaves its reconciliation processes resumed on every exit path, and
raises MaxSize (by exactly one) during the swap exactly when
DesiredCapacity equals MaxSize at the start of the swap. -/
theorem swapWithGroupMember_capacity_safety (env : SwapEnv) (spotId odId : String)
    (g : GroupState) (h : env.candidateOutcome = .replaceable) :
    (swapWithGroupMember env spotId odId g).2.1.maxSize = g.maxSize ∧
    (swapWithGroupMember env spotId odId g).2.1.processesSuspended = false ∧
    SwapEvent.suspendProcesses ∈ (swapWithGroupMember env spotId odId g).2.2 ∧
    SwapEvent.resumeProcesses ∈ (swapWithGroupMember env spotId odId g).2.2 ∧
    (SwapEvent.setMaxSize (g.maxSize + 1) ∈ (swapWithGroupMember env spotId odId g).2.2 ↔
      g.desiredCapacity = g.maxSize) ∧
    (∀ n, SwapEvent.setMaxSize n ∈ (swapWithGroupMember env spotId odId g).2.2 →
      n = g.maxSize + 1 ∨ n = g.maxSize) := by
  obtain ⟨co, att, term⟩ := env
  have hco : co = .replaceable := h
  subst hco
  by_cases hd : g.desiredCapacity = g.maxSize <;>
    cases att <;> cases term <;>
      simp [swapWithGroupMember, getSwapCandidate, suspendProcesses,
        resumeProcesses, setAutoScalingMaxSize, hd]

/-- Witness for C1 at a concrete input with Desired = Max = 2. -/
theorem swapWithGroupMember_capacity_safety_witness :
    (swapWithGroupMember ⟨.replaceable, true, true⟩ "i-spot" "i-od"
        ⟨2, 2, false⟩).2.1.maxSize = 2 ∧
    (swapWithGroupMember ⟨.replaceable, true, true⟩ "i-spot" "i-od"
        ⟨2, 2, false⟩).2.1.processesSuspended = false ∧
    SwapEvent.suspendProcesses ∈ (swapWithGroupMember ⟨.replaceable, true, true⟩
        "i-spot" "i-od" ⟨2, 2, false⟩).2.2 ∧
    SwapEvent.resumeProcesses ∈ (swapWithGroupMember ⟨.replaceable, true, true⟩
        "i-spot" "i-od" ⟨2, 2, false⟩).2.2 ∧
    (SwapEvent.setMaxSize (2 + 1) ∈ (swapWithGroupMember ⟨.replaceable, true, true⟩
        "i-spot" "i-od" ⟨2, 2, false⟩).2.2 ↔ (2 : Int) = 2) ∧
    (∀ n, SwapEvent.setMaxSize n ∈ (swapWithGroupMember ⟨.replaceable, true, true⟩
        "i-spot" "i-od" ⟨2, 2, false⟩).2.2 → n = 2 + 1 ∨ n = 2) :=
  swapWithGroupMember_capacity_safety ⟨.replaceable, true, true⟩ "i-spot" "i-od"
    ⟨2, 2, false⟩ rfl

/-- C4 counterexample: when the re-described on-demand target no longer
exists, swapWithGroupMember fails but does not terminate the unattached spot
instance, contradicting the claim that the spot instance is terminated in
both failure cases. -/
theorem swap_missing_target_counterexample :
    (∃ e, (swapWithGroupMember ⟨.targetMissing, true, true⟩ "i-spot" "i-od"
        ⟨1, 2, false⟩).1 = .error e) ∧
    SwapEvent.terminateSpotRequest "i-spot" ∉
      (swapWithGroupMember ⟨.targetMissing, true, true⟩ "i-spot" "i-od"
        ⟨1, 2, false⟩).2.2 := by
  constructor
  · exact ⟨_, rfl⟩
  · simp [swapWithGroupMember, getSwapCandidate]

/-- C4 (amended): the swap fails in both cases, but the unattached spot
instance is terminated only when shouldBeReplacedWithSpot() returns false
for the re-described target; when the target no longer exists the swap
fails without terminating the spot instance. -/
theorem getSwapCandidate_failure_handling (env : SwapEnv) (spotId odId : String)
    (g : GroupState) :
    (env.candidateOutcome = .notReplaceable →
      (∃ e, (swapWithGroupMember env spotId odId g).1 = .error e) ∧
      SwapEvent.terminateSpotRequest spotId ∈ (swapWithGroupMember env spotId odId g).2.2) ∧
    (env.candidateOutcome = .targetMissing →
      (∃ e, (swapWithGroupMember env spotId odId g).1 = .error e) ∧
      SwapEvent.terminateSpotRequest spotId ∉ (swapWithGroupMember env spotId odId g).2.2) := by
  obtain ⟨co, att, term⟩ := env
  constructor
  · intro h
    have hco : co = .notReplaceable := h
    subst hco
    exact ⟨⟨_, rfl⟩, by simp [swapWithGroupMember, getSwapCandidate]⟩
  · intro h
    have hco : co = .targetMissing := h
    subst hco
    exact ⟨⟨_, rfl⟩, by simp [swapWithGroupMember, getSwapCandidate]⟩

/-- Witness for the amended C4 at a concrete input. -/
theorem getSwapCandidate_failure_handling_witness :
    (∃ e, (swapWithGroupMember ⟨.notReplaceable, true, true⟩ "i-s" "i-o"
        ⟨1, 2, false⟩).1 = .error e) ∧
    SwapEvent.terminateSpotRequest "i-s" ∈
      (swapWithGroupMember ⟨.notReplaceable, true, true⟩ "i-s" "i-o"
        ⟨1, 2, false⟩).2.2 :=
  (getSwapCandidate_failure_handling ⟨.notReplaceable, true, true⟩ "i-s" "i-o"
    ⟨1, 2, false⟩).1 rfl

/-- C8: under the default ("auto") action, the instance is terminated via
TerminateInstanceInAutoScalingGroup with decrement false exactly when the
group has a lifecycle hook with the EC2_INSTANCE_TERMINATING transition and
is otherwise detached; for a rebalance-recommendation event the detach path
performs only the DetachInstances call (no tag deletion, no delayed
termination). -/
theorem executeAction_auto_dispatch (env : TermEnv) (instanceId asgName eventType : String)
    (hooks : List String)
    (hsvc : env.svcDefined = true)
    (hname : env.asgNameLookup = .ok asgName)
    (hne : asgName ≠ "")
    (hhooks : env.lifecycleHooks = .ok hooks) :
    (TermEvent.terminateInAsg instanceId false ∈
        (executeAction env instanceId "auto" eventType).2 ↔
      terminatingTransition ∈ hooks) ∧
    (terminatingTransition ∉ hooks →
      TermEvent.detachInstances asgName instanceId false ∈
        (executeAction env instanceId "auto" eventType).2) ∧
    (terminatingTransition ∉ hooks →
      eventType = InstanceRebalanceRecommendationCode →
      (executeAction env instanceId "auto" eventType).2 =
        [TermEvent.detachInstances asgName instanceId false]) := by
  obtain ⟨svc, lookup, lh, det, term⟩ := env
  simp only at hsvc hname hhooks
  subst hsvc
  subst hname
  subst hhooks
  by_cases hh : terminatingTransition ∈ hooks <;>
    by_cases hevt : eventType = InstanceRebalanceRecommendationCode <;>
      cases det <;> cases term <;>
        simp [executeAction, asgHasTerminationLifecycleHook, detachInstance,
          terminateInstance, hne, hh, hevt, List.elem_iff]

/-- Witness for C8 at a concrete input with a termination lifecycle hook. -/
theorem executeAction_auto_dispatch_witness :
    (TermEvent.terminateInAsg "i-1" false ∈
        (executeAction ⟨true, .ok "g1", .ok [terminatingTransition], true, true⟩
          "i-1" "auto" "evt").2 ↔
      terminatingTransition ∈ [terminatingTransition]) ∧
    (terminatingTransition ∉ [terminatingTransition] →
      TermEvent.detachInstances "g1" "i-1" false ∈
        (executeAction ⟨true, .ok "g1", .ok [terminatingTransition], true, true⟩
          "i-1" "auto" "evt").2) ∧
    (terminatingTransition ∉ [terminatingTransition] →
      "evt" = InstanceRebalanceRecommendationCode →
      (executeAction ⟨true, .ok "g1", .ok [terminatingTransition], true, true⟩
          "i-1" "auto" "evt").2 =
        [TermEvent.detachInstances "g1" "i-1" false]) :=
  executeAction_auto_dispatch ⟨true, .ok "g1", .ok [terminatingTransition], true, true⟩
    "i-1" "g1" "evt" [terminatingTransition] rfl rfl (by decide) rfl

/-- C9: executeAction returns an error only when the AutoScaling service
handle is nil or the group-name lookup fails; whenever the lookup succeeds
it returns nil regardless of the outcome of the chosen detach or terminate
action. -/
theorem executeAction_error_propagation (env : TermEnv)
    (instanceId action eventType : String) :
    (∀ e, (executeAction env instanceId action eventType).1 = .error e →
      env.svcDefined = false ∨ env.asgNameLookup = .error e) ∧
    (env.svcDefined = true → ∀ n, env.asgNameLookup = .ok n →
      (executeAction env instanceId action eventType).1 = .ok ()) := by
  obtain ⟨svc, lookup, lh, det, term⟩ := env
  cases svc
  · simp [executeAction]
  · cases lookup with
    | error e0 => simp [executeAction]
    | ok name =>
      by_cases hname : name = "" <;> simp [executeAction, hname]

/-- Witness for C9 at a concrete input whose detach call fails. -/
theorem executeAction_error_propagation_witness :
    (executeAction ⟨true, .ok "g1", .ok [], false, false⟩ "i-1" "detach" "evt").1 =
      .ok () :=
  (executeAction_error_propagation ⟨true, .ok "g1", .ok [], false, false⟩
    "i-1" "detach" "evt").2 rfl "g1" rfl

end AutoSpotting
